import Mathlib

/-!
Shallow embedding of the rheomesh SFU forwarding core (Rust sources under
the sfu crate) together with proofs about its specification claims.

The embedding translates, function by function:
  - MediaTrack::rtp_event_loop (media_track.rs): publisher ingress loop with
    its delta rewrite of RTP timestamps;
  - SubscribeTransport::rtp_event_loop (subscriber.rs): subscriber egress
    loop with its prefix-sum timestamp reconstruction;
  - SubscribeTransport::rtcp_event_loop (subscriber.rs): RTCP translation
    (receiver reports, PLI rewrite, REMB clamp);
  - PublishTransport::rtcp_writer_loop (publish_transport.rs);
  - SubscribeTransport::adjust_extmap and find_extmap_order
    (subscribe_transport.rs): SDP extmap reconciliation;
  - Router::router_event_loop (router.rs) as a step function on the router
    state, plus the signalling-side state of the two transports.

Machine integers are modelled as Nat with explicit reduction modulo 2^32
where the Rust code performs wrapping u32 arithmetic.  The REMB bitrate is
an f32 in the Rust code; every value decodable from the REMB wire format is
a nonnegative rational (mantissa times a power of two), and the code only
compares it against integer constants and assigns integer constants to it,
so the field is modelled as a rational number.
-/

/-! ## Wrapping 32-bit arithmetic -/

/-- Modulus of u32 arithmetic. -/
def U32MOD : Nat := 4294967296

/-- Reduce a natural number to a u32 value. -/
def u32 (n : Nat) : Nat := n % U32MOD

/-- Wrapping u32 subtraction, as performed by the timestamp rewrite in
MediaTrack::rtp_event_loop. -/
def wsub (a b : Nat) : Nat := (a % U32MOD + (U32MOD - b % U32MOD)) % U32MOD

/-! ## RTP packets and the two RTP loops -/

/-- RTP header, with the fields the forwarding core reads or writes.
Header fields other than the timestamp are never modified by the core; the
fields listed here stand for all of them. -/
structure RtpHeader where
  version : Nat
  ssrc : Nat
  sequenceNumber : Nat
  timestamp : Nat
deriving DecidableEq, Repr

/-- An RTP packet: header plus opaque payload bytes. -/
structure Packet where
  header : RtpHeader
  payload : List Nat
deriving DecidableEq, Repr

def Packet.withTimestamp (p : Packet) (ts : Nat) : Packet :=
  { p with header := { p.header with timestamp := ts } }

/-- Forget the timestamp of a packet (every other field is kept). -/
def Packet.stripTimestamp (p : Packet) : Packet := p.withTimestamp 0

/-- MediaTrack::rtp_event_loop (media_track.rs): reads packets from the
remote track in order; the first packet (and any packet whose predecessor
had timestamp 0) gets timestamp 0, every other packet gets the wrapping
difference from the previous original timestamp; the rewritten packets are
broadcast in read order.  The `last` argument is the `last_timestamp`
mutable local, initially 0. -/
def MediaTrack.rtp_event_loop : Nat → List Packet → List Packet
  | _, [] => []
  | last, p :: ps =>
    (if last = 0 then p.withTimestamp 0
     else p.withTimestamp (wsub p.header.timestamp last))
      :: MediaTrack.rtp_event_loop p.header.timestamp ps

/-- SubscribeTransport::rtp_event_loop (subscriber.rs): for each packet
received from the broadcast channel, add its timestamp into the running
`curr_timestamp` accumulator (wrapping u32 addition) and forward the packet
with the accumulated timestamp. -/
def SubscribeTransport.rtp_event_loop : Nat → List Packet → List Packet
  | _, [] => []
  | curr, p :: ps =>
    p.withTimestamp (u32 (curr + p.header.timestamp))
      :: SubscribeTransport.rtp_event_loop (u32 (curr + p.header.timestamp)) ps

/-- Composition of the publisher ingress loop and one subscriber egress
loop.  The broadcast channel delivers packets in send order; a subscriber
that subscribes after `k` packets have been broadcast receives the suffix
starting at index `k`. -/
def deliveredToSubscriber (k : Nat) (packets : List Packet) : List Packet :=
  SubscribeTransport.rtp_event_loop 0 ((MediaTrack.rtp_event_loop 0 packets).drop k)

/-- Original timestamp of the packet preceding index `i`, as tracked by the
`last_timestamp` local of the ingress loop: `last` before the first packet,
and the original timestamp of packet `i - 1` afterwards. -/
def prevTimestamp (last : Nat) (ps : List Packet) : Nat → Nat
  | 0 => last
  | i + 1 => ((ps.get? i).map (fun p => p.header.timestamp)).getD 0

/-! ## SDP media sections and extmap reconciliation -/

/-- webrtc-rs RTCRtpHeaderExtensionParameters: a uri together with the id
the publisher used for it.  The id field is an isize in the Rust code,
hence an Int here. -/
structure RTCRtpHeaderExtensionParameters where
  uri : String
  id : Int
deriving DecidableEq, Repr

/-- webrtc-sdp SdpAttributeExtmap: the id is a u16; `rest` stands for the
direction and extension-attributes fields, which adjust_extmap clones
verbatim. -/
structure SdpAttributeExtmap where
  id : Nat
  url : String
  rest : String
deriving DecidableEq, Repr

/-- The SDP media-level attributes adjust_extmap inspects: extmap and msid
(the msid carries an optional appdata field holding the publisher track
id).  Every other attribute kind is collapsed into `other`. -/
inductive SdpAttribute where
  | extmap (e : SdpAttributeExtmap)
  | msid (id : String) (appdata : Option String)
  | other (raw : String)
deriving DecidableEq, Repr

/-- One SDP media section: its attribute list, in order. -/
structure SdpMedia where
  attributes : List SdpAttribute
deriving DecidableEq, Repr

/-- SdpMedia::get_attribute(SdpAttributeType::Msid): first msid attribute
of the section, if any. -/
def SdpMedia.get_msid (m : SdpMedia) : Option (String × Option String) :=
  m.attributes.findSome? (fun a =>
    match a with
    | .msid i d => some (i, d)
    | _ => none)

/-- The extmap attributes of a section, in order of appearance (the
`found_attr` vector collected by adjust_extmap). -/
def SdpMedia.extmaps (m : SdpMedia) : List SdpAttributeExtmap :=
  m.attributes.filterMap (fun a =>
    match a with
    | .extmap e => some e
    | _ => none)

/-- SdpMedia::remove_attribute(SdpAttributeType::Extmap): drop every extmap
attribute, keeping all others in place. -/
def SdpMedia.remove_extmap (m : SdpMedia) : SdpMedia :=
  ⟨m.attributes.filter (fun a =>
    match a with
    | .extmap _ => false
    | _ => true)⟩

/-- SdpMedia::add_attribute with an extmap attribute: appended at the end
of the attribute list. -/
def SdpMedia.add_extmap (m : SdpMedia) (e : SdpAttributeExtmap) : SdpMedia :=
  ⟨m.attributes ++ [.extmap e]⟩

/-- The publishers-extmap mapping (a HashMap in the Rust code) as an
association list from track id to the list of header-extension parameters
of that publisher. -/
abbrev ExtmapMap : Type := List (String × List RTCRtpHeaderExtensionParameters)

/-- HashMap::get on the publishers-extmap mapping. -/
def ExtmapMap.get (m : ExtmapMap) (k : String) :
    Option (List RTCRtpHeaderExtensionParameters) :=
  (m.find? (fun kv => kv.1 == k)).map (fun kv => kv.2)

/-- find_extmap_order (subscribe_transport.rs): scan the publisher-side
extmaps for the first entry whose uri equals `url`; on a match, return its
id converted to u16 (`try_into`), which succeeds exactly when the id lies
in [0, 65535]; a failed conversion returns None immediately. -/
def find_extmap_order (url : String) :
    List RTCRtpHeaderExtensionParameters → Option Nat
  | [] => none
  | e :: rest =>
    if e.uri = url then
      (if 0 ≤ e.id ∧ e.id < 65536 then some e.id.toNat else none)
    else find_extmap_order url rest

/-- The re-add loop of SubscribeTransport::adjust_extmap: starting from
the section with its extmap attributes removed, re-add each collected
extmap whose url resolves through find_extmap_order, with its id rewritten
to the resolved order; an extmap whose url does not resolve is dropped. -/
def readd_extmaps (extmaps : List RTCRtpHeaderExtensionParameters)
    (found : List SdpAttributeExtmap) (acc : SdpMedia) : SdpMedia :=
  found.foldl
    (fun acc attr =>
      match find_extmap_order attr.url extmaps with
      | some order => acc.add_extmap { attr with id := order }
      | none => acc)
    acc

/-- Body of the per-media-section loop of SubscribeTransport::adjust_extmap:
skip the section unless it has an msid with appdata and the appdata has an
entry in the publishers-extmap mapping; otherwise collect the extmap
attributes, remove them all, and re-add them through readd_extmaps. -/
def adjust_extmap_media (publishers_extmap : ExtmapMap) (media : SdpMedia) :
    SdpMedia :=
  match media.get_msid with
  | none => media
  | some (_, none) => media
  | some (_, some track_id) =>
    match ExtmapMap.get publishers_extmap track_id with
    | none => media
    | some extmaps => readd_extmaps extmaps media.extmaps media.remove_extmap

/-- SubscribeTransport::adjust_extmap: apply the per-section rewrite to
every media section of the parsed offer. -/
def SubscribeTransport.adjust_extmap (sdp : List SdpMedia)
    (publishers_extmap : ExtmapMap) : List SdpMedia :=
  sdp.map (adjust_extmap_media publishers_extmap)

/-! ## RTCP packets, the translation loop and the writer loop -/

/-- detect_mime_type (media_track.rs) result type. -/
inductive MediaType where
  | video
  | audio
deriving DecidableEq, Repr

/-- detect_mime_type (media_track.rs): video when the mime type contains
the substring "video" or "Video", audio otherwise. -/
def detect_mime_type (mime_type : String) : MediaType :=
  if ("video".toList <:+: mime_type.toList) ∨ ("Video".toList <:+: mime_type.toList)
  then MediaType.video
  else MediaType.audio

/-- rtcp PictureLossIndication. -/
structure PictureLossIndication where
  sender_ssrc : Nat
  media_ssrc : Nat
deriving DecidableEq, Repr

/-- rtcp ReceiverEstimatedMaximumBitrate.  The bitrate is an f32 in the
Rust code; see the module comment for why a rational is a faithful model
here. -/
structure ReceiverEstimatedMaximumBitrate where
  sender_ssrc : Nat
  bitrate : Rat
  ssrcs : List Nat
deriving DecidableEq, Repr

/-- The RTCP packets the translation loop distinguishes, keyed the way the
Rust code keys them: by header packet type, and for payload-specific
feedback by the header count field (FORMAT_PLI or FORMAT_REMB). -/
inductive RtcpPacket where
  | receiverReport (raw : Nat)
  | pli (p : PictureLossIndication)
  | remb (r : ReceiverEstimatedMaximumBitrate)
  | otherPayloadFeedback (fmt : Nat)
  | other (packetType : Nat)
deriving DecidableEq, Repr

/-- Body of SubscribeTransport::rtcp_event_loop (subscriber.rs) for one
received RTCP packet: receiver reports are cloned and forwarded; a PLI is
replaced by a fresh PLI with sender_ssrc 0 and media_ssrc the source
publisher SSRC; a REMB is cloned and, when fewer than 30 seconds have
elapsed since the loop started, its bitrate is raised to 128000 when below
128000 on a video track, and set to 640000 when below 64000 on an audio
track; every other packet is ignored.  `elapsed` is the whole number of
seconds since the start timestamp.  The result is the packet sent to the
publisher RTCP channel, if any. -/
def SubscribeTransport.translate_rtcp (media_type : MediaType)
    (media_ssrc : Nat) (elapsed : Int) : RtcpPacket → Option RtcpPacket
  | .receiverReport raw => some (.receiverReport raw)
  | .pli _ => some (.pli ⟨0, media_ssrc⟩)
  | .remb r =>
    some (.remb
      (if elapsed < 30 then
        match media_type with
        | .video => if r.bitrate < 128000 then { r with bitrate := 128000 } else r
        | .audio => if r.bitrate < 64000 then { r with bitrate := 640000 } else r
      else r))
  | .otherPayloadFeedback _ => none
  | .other _ => none

/-- SubscribeTransport::rtcp_event_loop over a whole run: each received
packet is paired with the elapsed seconds at which it is processed; the
output is the sequence of packets forwarded to the publisher RTCP
channel. -/
def SubscribeTransport.rtcp_event_loop (media_type : MediaType)
    (media_ssrc : Nat) (received : List (Int × RtcpPacket)) : List RtcpPacket :=
  received.filterMap (fun it =>
    SubscribeTransport.translate_rtcp media_type media_ssrc it.1 it.2)

/-- Input events of PublishTransport::rtcp_writer_loop: either a packet
from the RTCP-send channel or the stop signal. -/
inductive WriterEvent where
  | data (p : RtcpPacket)
  | stop
deriving DecidableEq, Repr

/-- PublishTransport::rtcp_writer_loop (publish_transport.rs): drain the
RTCP channel, writing each packet to the publishing peer connection, until
the stop signal is received.  The result is the sequence of packets written
to the peer connection. -/
def PublishTransport.rtcp_writer_loop : List WriterEvent → List RtcpPacket
  | [] => []
  | .stop :: _ => []
  | .data p :: rest => p :: PublishTransport.rtcp_writer_loop rest

/-! ## Error taxonomy (error.rs) -/

inductive TransportErrorKind where
  | peerConnectionError
  | localDescriptionError
  | iceCandidateError
deriving DecidableEq, Repr

inductive SubscriberErrorKind where
  | trackNotFoundError
  | dataChannelNotFoundError
deriving DecidableEq, Repr

inductive PublisherErrorKind where
  | trackNotPublishedError
  | dataChannelNotPublishedError
deriving DecidableEq, Repr

/-- The error enum of error.rs: a catch-all for underlying webrtc errors
plus the three tagged categories, each carrying its kind and message. -/
inductive SfuError where
  | webRTCError (message : String)
  | transportError (kind : TransportErrorKind) (message : String)
  | subscriberError (kind : SubscriberErrorKind) (message : String)
  | publisherError (kind : PublisherErrorKind) (message : String)
deriving DecidableEq, Repr

/-! ## Publisher, Router state and the router event loop -/

/-- Modelled from the spec: the Publisher struct is absent from the source
snapshot (src/sfu/src/publisher.rs holds an older revision of the crate;
only callers in subscribe_transport.rs and publish_transport.rs are
present).  Per spec section 3, a Publisher is identified by the upstream
track id and carries the track SSRC, its codec MIME type, and (section 4.1)
the ordered sequence of (uri, id) header-extension pairs the publisher
actually used. -/
structure Publisher where
  id : String
  ssrc : Nat
  mime_type : String
  usedExtensions : List RTCRtpHeaderExtensionParameters
deriving DecidableEq, Repr

/-- DataPublisher: identified by a fresh id, carrying the channel label. -/
structure DataPublisher where
  id : String
  label : String
deriving DecidableEq, Repr

/-- HashMap::insert on a string-keyed association list: replace the value
when the key is present, append otherwise. -/
def hashInsert {α : Type} (m : List (String × α)) (k : String) (v : α) :
    List (String × α) :=
  if (m.find? (fun kv => kv.1 == k)).isSome
  then m.map (fun kv => if kv.1 == k then (k, v) else kv)
  else m ++ [(k, v)]

/-- HashMap::remove on a string-keyed association list. -/
def hashRemove {α : Type} (m : List (String × α)) (k : String) :
    List (String × α) :=
  m.filter (fun kv => kv.1 != k)

/-- HashMap::get on a string-keyed association list. -/
def hashGet {α : Type} (m : List (String × α)) (k : String) : Option α :=
  (m.find? (fun kv => kv.1 == k)).map (fun kv => kv.2)

/-- Router state: the publishers and data-publishers maps (router.rs). -/
structure Router where
  publishers : List (String × Publisher)
  dataPublishers : List (String × DataPublisher)
deriving DecidableEq, Repr

/-- The router event channel message kinds (RouterEvent in router.rs).
The getPublishersExtmap variant is modelled from the spec: it is sent by
SubscribeTransport::create_offer in the source snapshot, but the variant
itself and its event-loop arm live in a revision of router.rs that is not
part of the snapshot. -/
inductive RouterEvent where
  | trackPublished (publisher : Publisher)
  | trackRemoved (track_id : String)
  | dataPublished (d : DataPublisher)
  | dataRemoved (data_publisher_id : String)
  | getPublisher (track_id : String)
  | getDataPublisher (data_publisher_id : String)
  | getPublishersExtmap
  | closed
deriving DecidableEq, Repr

/-- Values sent back on the single-use reply channels of the router
events. -/
inductive RouterReply where
  | publisher (p : Option Publisher)
  | dataPublisher (d : Option DataPublisher)
  | publishersExtmap (m : List (String × List RTCRtpHeaderExtensionParameters))
deriving DecidableEq, Repr

/-- The GetPublisher arm of the router event loop: look the track id up in
the publishers map and reply with a clone. -/
def Router.get_publisher (r : Router) (track_id : String) : Option Publisher :=
  hashGet r.publishers track_id

/-- Modelled from the spec: reply payload of GetPublishersExtmap, a mapping
from each registered publisher track id to the ordered (uri, id) pairs of
the header extensions that publisher used (spec section 4.1). -/
def Router.publishers_extmap (r : Router) : ExtmapMap :=
  r.publishers.map (fun kv => (kv.1, kv.2.usedExtensions))

/-- One iteration of Router::router_event_loop (router.rs): process a
single event, returning the updated router state and the reply sent back,
if the event carries a reply channel.  The getPublishersExtmap arm is
modelled from the spec (see RouterEvent). -/
def Router.handle_event (r : Router) : RouterEvent → Router × Option RouterReply
  | .trackPublished publisher =>
    ({ r with publishers := hashInsert r.publishers publisher.id publisher }, none)
  | .trackRemoved track_id =>
    ({ r with publishers := hashRemove r.publishers track_id }, none)
  | .dataPublished d =>
    ({ r with dataPublishers := hashInsert r.dataPublishers d.id d }, none)
  | .dataRemoved data_publisher_id =>
    ({ r with dataPublishers := hashRemove r.dataPublishers data_publisher_id }, none)
  | .getPublisher track_id =>
    (r, some (.publisher (Router.get_publisher r track_id)))
  | .getDataPublisher data_publisher_id =>
    (r, some (.dataPublisher (hashGet r.dataPublishers data_publisher_id)))
  | .getPublishersExtmap =>
    (r, some (.publishersExtmap (Router.publishers_extmap r)))
  | .closed => (r, none)

/-! ## Transport state: ICE candidates, remote description, signalling -/

/-- Result of attaching a publisher local track: the Subscriber object
constructed by subscribe_track, carrying the source publisher SSRC and MIME
type (subscriber construction in subscribe_transport.rs). -/
structure SubscriberHandle where
  publisher_ssrc : Nat
  mime_type : String
deriving DecidableEq, Repr

/-- Observable state of one SubscribeTransport: the single-flight
signalling flag, the tracks attached to the peer connection, the remote
description, the pending ICE-candidate buffer, and the candidates that have
been added to the peer connection. -/
structure SubscribeTransportState where
  signaling_pending : Bool
  attached_track_ids : List String
  remote_description : Option String
  pending_candidates : List String
  pc_candidates : List String
deriving DecidableEq, Repr

/-- SubscribeTransport::subscribe (subscribe_transport.rs): send
GetPublisher to the router; when the reply is None, fail with a
TrackNotFoundError and leave the transport untouched; otherwise spin until
the signalling flag is clear, set it, attach the publisher local track and
construct the Subscriber (offer creation follows and does not change the
state modelled here). -/
def SubscribeTransport.subscribe (st : SubscribeTransportState) (r : Router)
    (publisher_id : String) :
    SubscribeTransportState × Except SfuError SubscriberHandle :=
  match Router.get_publisher r publisher_id with
  | none =>
    (st, .error (.subscriberError .trackNotFoundError
      ("Publisher for " ++ publisher_id ++ " is not found")))
  | some publisher =>
    ({ st with signaling_pending := true,
               attached_track_ids := st.attached_track_ids ++ [publisher.id] },
     .ok ⟨publisher.ssrc, publisher.mime_type⟩)

/-- SubscribeTransport::set_answer (subscribe_transport.rs): set the remote
description, clear the signalling flag, then add every candidate of the
pending buffer to the peer connection (the buffer itself is not
modified). -/
def SubscribeTransport.set_answer (st : SubscribeTransportState)
    (answer : String) : SubscribeTransportState :=
  { st with
    remote_description := some answer,
    signaling_pending := false,
    pc_candidates := st.pc_candidates ++ st.pending_candidates }

/-- SubscribeTransport::add_ice_candidate (subscribe_transport.rs): when a
remote description exists the candidate is added to the peer connection,
otherwise it is pushed onto the pending buffer. -/
def SubscribeTransport.add_ice_candidate (st : SubscribeTransportState)
    (candidate : String) : SubscribeTransportState :=
  match st.remote_description with
  | some _ => { st with pc_candidates := st.pc_candidates ++ [candidate] }
  | none => { st with pending_candidates := st.pending_candidates ++ [candidate] }

/-- Observable state of one PublishTransport: remote description, pending
ICE-candidate buffer, candidates added to the peer connection. -/
structure PublishTransportState where
  remote_description : Option String
  pending_candidates : List String
  pc_candidates : List String
deriving DecidableEq, Repr

/-- PublishTransport::add_ice_candidate (publish_transport.rs): same
park-or-apply logic as on the subscribe side. -/
def PublishTransport.add_ice_candidate (st : PublishTransportState)
    (candidate : String) : PublishTransportState :=
  match st.remote_description with
  | some _ => { st with pc_candidates := st.pc_candidates ++ [candidate] }
  | none => { st with pending_candidates := st.pending_candidates ++ [candidate] }

/-- PublishTransport::get_answer_for_offer (publish_transport.rs): set the
remote description to the offer, then add every pending candidate to the
peer connection (the buffer is not modified); answer creation and the local
description are outside this state model. -/
def PublishTransport.get_answer_for_offer (st : PublishTransportState)
    (offer : String) : PublishTransportState :=
  { st with
    remote_description := some offer,
    pc_candidates := st.pc_candidates ++ st.pending_candidates }

/-- The extmap consumption step of SubscribeTransport::create_offer
(subscribe_transport.rs): send GetPublishersExtmap to the router and pass
the reply to adjust_extmap; when no extmap reply arrives the offer is
returned as generated (unreachable given the event-loop arm). -/
def SubscribeTransport.create_offer_adjust (r : Router)
    (offer : List SdpMedia) : List SdpMedia :=
  match (Router.handle_event r .getPublishersExtmap).2 with
  | some (.publishersExtmap reply) => SubscribeTransport.adjust_extmap offer reply
  | _ => offer

/-! ## Signalling step traces

To settle the single-flight claim, each signalling-path operation of
SubscribeTransport is transliterated into the ordered list of the atomic
steps it performs on the shared signalling state, in the order the source
performs them. -/

inductive SigStep where
  | sendGetPublisher
  | sendGetDataPublisher
  | sendGetPublishersExtmap
  | waitSignalingClear
  | setSignalingPending
  | clearSignalingPending
  | addTrack
  | createDataChannel
  | createOffer
  | setLocalDescription
  | setRemoteDescription
  | addPendingCandidatesToPc
deriving DecidableEq, Repr

/-- Steps of SubscribeTransport::subscribe followed by its create_offer
call (subscribe_transport.rs lines 92-124 and 152-181). -/
def subscribe_steps : List SigStep :=
  [.sendGetPublisher, .waitSignalingClear, .setSignalingPending, .addTrack,
   .createOffer, .setLocalDescription, .sendGetPublishersExtmap]

/-- Steps of SubscribeTransport::data_subscribe followed by its
create_offer call (subscribe_transport.rs lines 127-150 and 152-181). -/
def data_subscribe_steps : List SigStep :=
  [.sendGetDataPublisher, .createDataChannel, .createOffer,
   .setLocalDescription, .sendGetPublishersExtmap]

/-- Steps of the on_negotiation_needed callback installed by
ice_state_hooks (subscribe_transport.rs lines 263-295). -/
def on_negotiation_needed_steps : List SigStep :=
  [.waitSignalingClear, .setSignalingPending, .sendGetPublishersExtmap,
   .createOffer, .setLocalDescription]

/-- Steps of SubscribeTransport::set_answer (subscribe_transport.rs lines
184-202). -/
def set_answer_steps : List SigStep :=
  [.setRemoteDescription, .clearSignalingPending, .addPendingCandidatesToPc]

/-- All signalling-path operations of a SubscribeTransport. -/
def signaling_ops : List (List SigStep) :=
  [subscribe_steps, data_subscribe_steps, on_negotiation_needed_steps,
   set_answer_steps]

/-- An operation attaches media when it adds a track or creates a data
channel on the peer connection. -/
def attachesMedia (s : List SigStep) : Bool :=
  s.contains .addTrack || s.contains .createDataChannel

/-- An operation generates an offer when it calls create_offer. -/
def generatesOffer (s : List SigStep) : Bool :=
  s.contains .createOffer

/-- An operation follows the single-flight protocol when it waits for the
signalling flag, then sets it, before creating its offer. -/
def waitsThenSetsBeforeOffer (s : List SigStep) : Bool :=
  match s.findIdx? (fun x => x == .waitSignalingClear),
      s.findIdx? (fun x => x == .setSignalingPending),
      s.findIdx? (fun x => x == .createOffer) with
  | some w, some p, some o => decide (w < p) && decide (p < o)
  | _, _, _ => false

/-! ## Helper definitions and concrete inputs used by the theorems -/

/-- Sum of the timestamps of the first `n` packets of a list (the value
accumulated by the egress prefix sum, before reduction mod 2^32). -/
def tsSum (rs : List Packet) (n : Nat) : Nat :=
  ((rs.take n).map (fun p => p.header.timestamp)).sum

/-- A concrete RTP packet with a nonzero timestamp. -/
def c3Packet : Packet := ⟨⟨2, 1111, 7, 1000⟩, [1, 2, 3]⟩

/-- First packet of the C9 counterexample run: original timestamp 0. -/
def c9PacketA : Packet := ⟨⟨2, 5, 1, 0⟩, [9]⟩

/-- Second packet of the C9 counterexample run: original timestamp 1000. -/
def c9PacketB : Packet := ⟨⟨2, 5, 2, 1000⟩, [9]⟩

/-- First packet of the C9 witness run: original timestamp 100. -/
def c9WitnessA : Packet := ⟨⟨2, 6, 1, 100⟩, []⟩

/-- Second packet of the C9 witness run: original timestamp 250. -/
def c9WitnessB : Packet := ⟨⟨2, 6, 2, 250⟩, []⟩

/-- A media section whose only extmap has a publisher-side counterpart
with an id outside the u16 range. -/
def c1CounterMedia : SdpMedia :=
  ⟨[.msid "s" (some "t"), .extmap ⟨5, "urn:u", ""⟩]⟩

/-- Publishers-extmap mapping giving track "t" one extension whose id is
negative, hence not representable as a u16. -/
def c1CounterPubs : ExtmapMap := [("t", [⟨"urn:u", -1⟩])]

/-- A media section with an msid, two extmaps (one with a publisher-side
counterpart, one without) and one unrelated attribute. -/
def c1SampleMedia : SdpMedia :=
  ⟨[.msid "stream" (some "track1"),
    .extmap ⟨5, "urn:3gpp:video-orientation", ""⟩,
    .extmap ⟨7, "http://example.com/unknown", ""⟩,
    .other "rtcp-mux"]⟩

/-- Publisher-side extensions for the C1 witness. -/
def c1SampleExts : List RTCRtpHeaderExtensionParameters :=
  [⟨"urn:3gpp:video-orientation", 13⟩]

/-- Publishers-extmap mapping for the C1 witness. -/
def c1SamplePubs : ExtmapMap := [("track1", c1SampleExts)]

/-- A concrete publisher registered in the sample router. -/
def samplePublisher : Publisher :=
  ⟨"track1", 42, "video/VP8", [⟨"urn:3gpp:video-orientation", 13⟩]⟩

/-- A router with one registered publisher and no data publishers. -/
def sampleRouter : Router := ⟨[("track1", samplePublisher)], []⟩

/-- A router with no publishers at all. -/
def emptyRouter : Router := ⟨[], []⟩

/-- A subscribe transport that has no remote description yet and one parked
ICE candidate. -/
def sampleSubState : SubscribeTransportState :=
  ⟨false, [], none, ["cand0"], []⟩

/-- A publish transport that has no remote description yet and one parked
ICE candidate. -/
def samplePubState : PublishTransportState := ⟨none, ["candP"], []⟩

/-! ## Claim theorems -/

/-- Claim C2: in the RTCP translation loop, every REMB received within the
first 30 seconds of the Subscriber lifetime is forwarded with bitrate at
least 128000 on a video track and at least 64000 on an audio track (other
REMB fields unchanged), and every REMB received after 30 seconds is
forwarded with its bitrate unchanged. -/
theorem C2_remb_clamp_floor (mime : String) (media_ssrc : Nat) (elapsed : Int)
    (r : ReceiverEstimatedMaximumBitrate) :
    (elapsed < 30 → detect_mime_type mime = .video →
      ∃ fw, SubscribeTransport.translate_rtcp (detect_mime_type mime) media_ssrc
          elapsed (.remb r) = some (.remb fw) ∧
        128000 ≤ fw.bitrate ∧ fw.sender_ssrc = r.sender_ssrc ∧ fw.ssrcs = r.ssrcs) ∧
    (elapsed < 30 → detect_mime_type mime = .audio →
      ∃ fw, SubscribeTransport.translate_rtcp (detect_mime_type mime) media_ssrc
          elapsed (.remb r) = some (.remb fw) ∧
        64000 ≤ fw.bitrate ∧ fw.sender_ssrc = r.sender_ssrc ∧ fw.ssrcs = r.ssrcs) ∧
    (30 ≤ elapsed →
      SubscribeTransport.translate_rtcp (detect_mime_type mime) media_ssrc
          elapsed (.remb r) = some (.remb r)) := by
  refine ⟨?_, ?_, ?_⟩
  · intro ht hv
    rw [hv]
    refine ⟨if r.bitrate < 128000 then { r with bitrate := 128000 } else r,
      ?_, ?_, ?_, ?_⟩
    · simp only [SubscribeTransport.translate_rtcp]
      rw [if_pos ht]
    · split_ifs with hb
      · norm_num
      · exact le_of_not_lt hb
    · split_ifs <;> rfl
    · split_ifs <;> rfl
  · intro ht hv
    rw [hv]
    refine ⟨if r.bitrate < 64000 then { r with bitrate := 640000 } else r,
      ?_, ?_, ?_, ?_⟩
    · simp only [SubscribeTransport.translate_rtcp]
      rw [if_pos ht]
    · split_ifs with hb
      · norm_num
      · exact le_of_not_lt hb
    · split_ifs <;> rfl
    · split_ifs <;> rfl
  · intro ht
    simp only [SubscribeTransport.translate_rtcp]
    rw [if_neg (not_lt.mpr ht)]

/-- Witness for C2: a REMB of 50000 at second 0 is raised to at least
128000 on a video track and to at least 64000 on an audio track, and at
second 30 it is forwarded unchanged. -/
theorem C2_remb_clamp_floor_witness :
    (∃ fw, SubscribeTransport.translate_rtcp (detect_mime_type "video/VP8") 1 0
        (.remb ⟨0, 50000, []⟩) = some (.remb fw) ∧
      128000 ≤ fw.bitrate ∧ fw.sender_ssrc = 0 ∧ fw.ssrcs = []) ∧
    (∃ fw, SubscribeTransport.translate_rtcp (detect_mime_type "audio/opus") 1 0
        (.remb ⟨0, 50000, []⟩) = some (.remb fw) ∧
      64000 ≤ fw.bitrate ∧ fw.sender_ssrc = 0 ∧ fw.ssrcs = []) ∧
    SubscribeTransport.translate_rtcp (detect_mime_type "video/VP8") 1 30
      (.remb ⟨0, 50000, []⟩) = some (.remb ⟨0, 50000, []⟩) :=
  ⟨(C2_remb_clamp_floor "video/VP8" 1 0 ⟨0, 50000, []⟩).1 (by norm_num) (by decide),
   (C2_remb_clamp_floor "audio/opus" 1 0 ⟨0, 50000, []⟩).2.1 (by norm_num) (by decide),
   (C2_remb_clamp_floor "video/VP8" 1 30 ⟨0, 50000, []⟩).2.2 (by norm_num)⟩

/-- Claim C6: a PSFB/PLI received in the translation loop is forwarded as a
freshly built PLI with sender_ssrc 0 and media_ssrc the source publisher
SSRC, and the RTCP writer loop writes every packet queued on the RTCP-send
channel (in particular that PLI) to the publishing peer connection. -/
theorem C6_pli_translation (media_type : MediaType) (media_ssrc : Nat)
    (elapsed : Int) (p : PictureLossIndication) (queued : List RtcpPacket) :
    SubscribeTransport.translate_rtcp media_type media_ssrc elapsed (.pli p)
      = some (.pli ⟨0, media_ssrc⟩) ∧
    PublishTransport.rtcp_writer_loop (queued.map WriterEvent.data) = queued ∧
    PublishTransport.rtcp_writer_loop
      ((SubscribeTransport.rtcp_event_loop media_type media_ssrc
        [(elapsed, .pli p)]).map WriterEvent.data)
      = [.pli ⟨0, media_ssrc⟩] := by
  have hw : ∀ qs : List RtcpPacket,
      PublishTransport.rtcp_writer_loop (qs.map WriterEvent.data) = qs := by
    intro qs
    induction qs with
    | nil => rfl
    | cons q qs ih => simpa [PublishTransport.rtcp_writer_loop] using ih
  refine ⟨rfl, hw queued, ?_⟩
  exact hw [.pli ⟨0, media_ssrc⟩]

/-- Claim C4 counterexample: data_subscribe attaches a data channel and
generates an offer without ever waiting for or setting the
signalling-pending flag, refuting the claim that every such operation
first waits until the flag is clear and then sets it. -/
theorem C4_counterexample :
    data_subscribe_steps ∈ signaling_ops ∧
    attachesMedia data_subscribe_steps = true ∧
    generatesOffer data_subscribe_steps = true ∧
    waitsThenSetsBeforeOffer data_subscribe_steps = false := by decide

/-- Claim C4 (amended): subscribe and the negotiation-needed callback wait
until the signalling-pending flag is clear and set it before creating
their offer; data_subscribe attaches a data channel and creates an offer
without touching the flag; and set_answer is the only operation that
clears the flag. -/
theorem C4_single_flight_amended :
    waitsThenSetsBeforeOffer subscribe_steps = true ∧
    waitsThenSetsBeforeOffer on_negotiation_needed_steps = true ∧
    attachesMedia data_subscribe_steps = true ∧
    generatesOffer data_subscribe_steps = true ∧
    data_subscribe_steps.contains SigStep.waitSignalingClear = false ∧
    data_subscribe_steps.contains SigStep.setSignalingPending = false ∧
    signaling_ops.filter (fun op => op.contains SigStep.clearSignalingPending)
      = [set_answer_steps] := by decide

/-- Claim C7: subscribe fails with a TrackNotFoundError exactly when the
router publishers map has no entry for the requested id when the
GetPublisher request is processed, and in that case the transport state
(signalling flag, attached tracks, candidates) is unchanged. -/
theorem C7_subscribe_not_found (st : SubscribeTransportState) (r : Router)
    (publisher_id : String) :
    ((∃ msg, (SubscribeTransport.subscribe st r publisher_id).2
        = .error (.subscriberError .trackNotFoundError msg))
      ↔ Router.get_publisher r publisher_id = none) ∧
    (Router.get_publisher r publisher_id = none →
      (SubscribeTransport.subscribe st r publisher_id).1 = st) := by
  constructor
  · constructor
    · rintro ⟨msg, hmsg⟩
      cases h : Router.get_publisher r publisher_id with
      | none => rfl
      | some pub =>
        simp [SubscribeTransport.subscribe, h] at hmsg
    · intro h
      refine ⟨"Publisher for " ++ publisher_id ++ " is not found", ?_⟩
      simp [SubscribeTransport.subscribe, h]
  · intro h
    simp [SubscribeTransport.subscribe, h]

/-- Witness for C7: subscribing against an empty router fails with a
TrackNotFoundError and leaves the transport state untouched. -/
theorem C7_subscribe_not_found_witness :
    (SubscribeTransport.subscribe sampleSubState emptyRouter "missing").1
      = sampleSubState ∧
    ∃ msg, (SubscribeTransport.subscribe sampleSubState emptyRouter "missing").2
      = .error (.subscriberError .trackNotFoundError msg) :=
  ⟨(C7_subscribe_not_found sampleSubState emptyRouter "missing").2 rfl,
   (C7_subscribe_not_found sampleSubState emptyRouter "missing").1.mpr rfl⟩

/-- Claim C8: on both transports, a candidate added while no remote
description is set is appended to the pending buffer and the peer
connection is untouched; setting the remote description (set_answer on the
subscribe side, the answer protocol on the publish side) adds every parked
candidate to the peer connection. -/
theorem C8_ice_candidate_parking (sst : SubscribeTransportState)
    (pst : PublishTransportState) (c answer offer : String) :
    (sst.remote_description = none →
      SubscribeTransport.add_ice_candidate sst c
        = { sst with pending_candidates := sst.pending_candidates ++ [c] }) ∧
    (pst.remote_description = none →
      PublishTransport.add_ice_candidate pst c
        = { pst with pending_candidates := pst.pending_candidates ++ [c] }) ∧
    ((SubscribeTransport.set_answer sst answer).remote_description = some answer) ∧
    (∀ d ∈ sst.pending_candidates,
      d ∈ (SubscribeTransport.set_answer sst answer).pc_candidates) ∧
    ((PublishTransport.get_answer_for_offer pst offer).remote_description
      = some offer) ∧
    (∀ d ∈ pst.pending_candidates,
      d ∈ (PublishTransport.get_answer_for_offer pst offer).pc_candidates) := by
  refine ⟨?_, ?_, rfl, ?_, rfl, ?_⟩
  · intro h
    simp [SubscribeTransport.add_ice_candidate, h]
  · intro h
    simp [PublishTransport.add_ice_candidate, h]
  · intro d hd
    simp [SubscribeTransport.set_answer]
    exact Or.inr hd
  · intro d hd
    simp [PublishTransport.get_answer_for_offer]
    exact Or.inr hd

/-- Witness for C8 at concrete transports with one parked candidate
each. -/
theorem C8_ice_candidate_parking_witness :
    SubscribeTransport.add_ice_candidate sampleSubState "c1"
      = { sampleSubState with
          pending_candidates := sampleSubState.pending_candidates ++ ["c1"] } ∧
    "cand0" ∈ (SubscribeTransport.set_answer sampleSubState "ans").pc_candidates ∧
    PublishTransport.add_ice_candidate samplePubState "c2"
      = { samplePubState with
          pending_candidates := samplePubState.pending_candidates ++ ["c2"] } ∧
    "candP" ∈ (PublishTransport.get_answer_for_offer samplePubState "off").pc_candidates :=
  ⟨(C8_ice_candidate_parking sampleSubState samplePubState "c1" "ans" "off").1 rfl,
   (C8_ice_candidate_parking sampleSubState samplePubState "c1" "ans" "off").2.2.2.1
     "cand0" (by decide),
   (C8_ice_candidate_parking sampleSubState samplePubState "c2" "ans" "off").2.1 rfl,
   (C8_ice_candidate_parking sampleSubState samplePubState "c2" "ans" "off").2.2.2.2.2
     "candP" (by decide)⟩

/-- Claim C10: flushing parked candidates does not empty the pending
buffer on either transport, so a second remote-description set adds every
previously parked candidate to the peer connection again. -/
theorem C10_flush_keeps_pending (sst : SubscribeTransportState)
    (pst : PublishTransportState) (a1 a2 offer1 offer2 : String) :
    (SubscribeTransport.set_answer sst a1).pending_candidates
      = sst.pending_candidates ∧
    (PublishTransport.get_answer_for_offer pst offer1).pending_candidates
      = pst.pending_candidates ∧
    (SubscribeTransport.set_answer (SubscribeTransport.set_answer sst a1) a2).pc_candidates
      = sst.pc_candidates ++ sst.pending_candidates ++ sst.pending_candidates ∧
    (PublishTransport.get_answer_for_offer
        (PublishTransport.get_answer_for_offer pst offer1) offer2).pc_candidates
      = pst.pc_candidates ++ pst.pending_candidates ++ pst.pending_candidates :=
  ⟨rfl, rfl, rfl, rfl⟩

/-! ## Lemmas about the extmap rewrite -/

theorem extmaps_add_extmap (m : SdpMedia) (e : SdpAttributeExtmap) :
    (m.add_extmap e).extmaps = m.extmaps ++ [e] := by
  simp [SdpMedia.add_extmap, SdpMedia.extmaps]

theorem remove_extmap_add_extmap (m : SdpMedia) (e : SdpAttributeExtmap) :
    (m.add_extmap e).remove_extmap = m.remove_extmap := by
  simp [SdpMedia.add_extmap, SdpMedia.remove_extmap]

theorem extmaps_remove_extmap (m : SdpMedia) : m.remove_extmap.extmaps = [] := by
  obtain ⟨attrs⟩ := m
  induction attrs with
  | nil => rfl
  | cons a rest ih =>
    cases a <;>
      simpa [SdpMedia.remove_extmap, SdpMedia.extmaps, List.filter_cons,
        List.filterMap_cons] using ih

theorem remove_extmap_idem (m : SdpMedia) :
    m.remove_extmap.remove_extmap = m.remove_extmap := by
  obtain ⟨attrs⟩ := m
  induction attrs with
  | nil => rfl
  | cons a rest ih =>
    cases a <;>
      simp [SdpMedia.remove_extmap, List.filter_cons]

theorem readd_extmaps_extmaps (ex : List RTCRtpHeaderExtensionParameters) :
    ∀ (found : List SdpAttributeExtmap) (acc : SdpMedia),
    (readd_extmaps ex found acc).extmaps
      = acc.extmaps ++ found.filterMap (fun e =>
          (find_extmap_order e.url ex).map (fun o => { e with id := o })) := by
  intro found
  induction found with
  | nil => intro acc; simp [readd_extmaps]
  | cons e rest ih =>
    intro acc
    cases h : find_extmap_order e.url ex with
    | none =>
      have hstep : readd_extmaps ex (e :: rest) acc = readd_extmaps ex rest acc := by
        simp [readd_extmaps, h]
      rw [hstep, ih]
      simp [List.filterMap_cons, h]
    | some o =>
      have hstep : readd_extmaps ex (e :: rest) acc
          = readd_extmaps ex rest (acc.add_extmap { e with id := o }) := by
        simp [readd_extmaps, h]
      rw [hstep, ih, extmaps_add_extmap]
      simp [List.filterMap_cons, h]

theorem readd_extmaps_remove (ex : List RTCRtpHeaderExtensionParameters) :
    ∀ (found : List SdpAttributeExtmap) (acc : SdpMedia),
    (readd_extmaps ex found acc).remove_extmap = acc.remove_extmap := by
  intro found
  induction found with
  | nil => intro acc; rfl
  | cons e rest ih =>
    intro acc
    cases h : find_extmap_order e.url ex with
    | none =>
      have hstep : readd_extmaps ex (e :: rest) acc = readd_extmaps ex rest acc := by
        simp [readd_extmaps, h]
      rw [hstep, ih]
    | some o =>
      have hstep : readd_extmaps ex (e :: rest) acc
          = readd_extmaps ex rest (acc.add_extmap { e with id := o }) := by
        simp [readd_extmaps, h]
      rw [hstep, ih, remove_extmap_add_extmap]

theorem find_extmap_order_mem (url : String) :
    ∀ (ex : List RTCRtpHeaderExtensionParameters) (o : Nat),
    find_extmap_order url ex = some o →
    ∃ p ∈ ex, p.uri = url ∧ p.id = (o : Int) := by
  intro ex
  induction ex with
  | nil => intro o h; cases h
  | cons e rest ih =>
    intro o h
    by_cases he : e.uri = url
    · rw [find_extmap_order, if_pos he] at h
      by_cases hr : 0 ≤ e.id ∧ e.id < 65536
      · rw [if_pos hr] at h
        obtain rfl : e.id.toNat = o := Option.some.inj h
        exact ⟨e, List.mem_cons_self e rest, he, (Int.toNat_of_nonneg hr.1).symm⟩
      · rw [if_neg hr] at h
        cases h
    · rw [find_extmap_order, if_neg he] at h
      obtain ⟨p, hp, hpu, hpi⟩ := ih o h
      exact ⟨p, List.mem_cons_of_mem _ hp, hpu, hpi⟩

/-- Claim C1 counterexample: a section whose msid appdata has a mapping
entry and whose only extmap has a publisher-side counterpart for its uri
nevertheless loses that extmap, because the publisher-side id (-1, an
isize) is not representable as a u16; the claim as stated requires it to
be re-added with the publisher-side id. -/
theorem C1_counterexample :
    c1CounterMedia.get_msid = some ("s", some "t") ∧
    ExtmapMap.get c1CounterPubs "t" = some [⟨"urn:u", -1⟩] ∧
    c1CounterMedia.extmaps.map (fun e => e.url) = ["urn:u"] ∧
    (∃ p ∈ [(⟨"urn:u", -1⟩ : RTCRtpHeaderExtensionParameters)], p.uri = "urn:u") ∧
    (SubscribeTransport.adjust_extmap [c1CounterMedia] c1CounterPubs).map
      SdpMedia.extmaps = [[]] := by decide

/-- Claim C1 (amended): adjust_extmap rewrites each media section of the
offer independently; a section without an msid appdata entry in the
publishers-extmap mapping is left untouched; otherwise its extmap
attributes are removed and re-added in order with each id rewritten to the
first publisher-side id for its uri, an extmap whose uri has no
publisher-side counterpart with a u16-representable id being dropped; and
consequently every extmap id of a rewritten section equals a
publisher-side id for that uri, never a mismatched one. -/
theorem C1_adjust_extmap_amended (publishers_extmap : ExtmapMap)
    (sdp : List SdpMedia) (media : SdpMedia) :
    (SubscribeTransport.adjust_extmap sdp publishers_extmap
      = sdp.map (adjust_extmap_media publishers_extmap)) ∧
    (media.get_msid = none →
      adjust_extmap_media publishers_extmap media = media) ∧
    (∀ sid, media.get_msid = some (sid, none) →
      adjust_extmap_media publishers_extmap media = media) ∧
    (∀ sid tid, media.get_msid = some (sid, some tid) →
      ExtmapMap.get publishers_extmap tid = none →
      adjust_extmap_media publishers_extmap media = media) ∧
    (∀ sid tid ex, media.get_msid = some (sid, some tid) →
      ExtmapMap.get publishers_extmap tid = some ex →
      (adjust_extmap_media publishers_extmap media).extmaps
          = media.extmaps.filterMap (fun e =>
              (find_extmap_order e.url ex).map (fun o => { e with id := o })) ∧
      (adjust_extmap_media publishers_extmap media).remove_extmap
          = media.remove_extmap ∧
      ∀ e ∈ (adjust_extmap_media publishers_extmap media).extmaps,
        ∃ p ∈ ex, p.uri = e.url ∧ p.id = (e.id : Int)) := by
  refine ⟨rfl, ?_, ?_, ?_, ?_⟩
  · intro h
    simp [adjust_extmap_media, h]
  · intro sid h
    simp [adjust_extmap_media, h]
  · intro sid tid h1 h2
    simp [adjust_extmap_media, h1, h2]
  · intro sid tid ex h1 h2
    have hval : adjust_extmap_media publishers_extmap media
        = readd_extmaps ex media.extmaps media.remove_extmap := by
      simp [adjust_extmap_media, h1, h2]
    have hext : (adjust_extmap_media publishers_extmap media).extmaps
        = media.extmaps.filterMap (fun e =>
            (find_extmap_order e.url ex).map (fun o => { e with id := o })) := by
      rw [hval, readd_extmaps_extmaps, extmaps_remove_extmap]
      simp
    refine ⟨hext, ?_, ?_⟩
    · rw [hval, readd_extmaps_remove, remove_extmap_idem]
    · intro e he
      rw [hext] at he
      obtain ⟨e0, he0, hfe⟩ := List.mem_filterMap.mp he
      obtain ⟨o, hfind, hgo⟩ := Option.map_eq_some'.mp hfe
      obtain ⟨p, hp, hpu, hpi⟩ := find_extmap_order_mem e0.url ex o hfind
      refine ⟨p, hp, ?_, ?_⟩
      · rw [hpu, ← hgo]
      · rw [hpi, ← hgo]

/-- Witness for C1 on a concrete section with one matching and one
unmatched extension. -/
theorem C1_adjust_extmap_amended_witness :
    (adjust_extmap_media c1SamplePubs c1SampleMedia).extmaps
      = c1SampleMedia.extmaps.filterMap (fun e =>
          (find_extmap_order e.url c1SampleExts).map (fun o => { e with id := o })) ∧
    (adjust_extmap_media c1SamplePubs c1SampleMedia).remove_extmap
      = c1SampleMedia.remove_extmap ∧
    ∀ e ∈ (adjust_extmap_media c1SamplePubs c1SampleMedia).extmaps,
      ∃ p ∈ c1SampleExts, p.uri = e.url ∧ p.id = (e.id : Int) :=
  (C1_adjust_extmap_amended c1SamplePubs [] c1SampleMedia).2.2.2.2 "stream" "track1"
    c1SampleExts (by decide) (by decide)

/-! ## Lemmas about the RTP loops -/

theorem stripTimestamp_withTimestamp (p : Packet) (ts : Nat) :
    (p.withTimestamp ts).stripTimestamp = p.stripTimestamp := rfl

theorem timestamp_withTimestamp (p : Packet) (ts : Nat) :
    (p.withTimestamp ts).header.timestamp = ts := rfl

theorem mediaTrack_rtp_strip : ∀ (last : Nat) (ps : List Packet),
    (MediaTrack.rtp_event_loop last ps).map Packet.stripTimestamp
      = ps.map Packet.stripTimestamp := by
  intro last ps
  induction ps generalizing last with
  | nil => rfl
  | cons p rest ih =>
    simp only [MediaTrack.rtp_event_loop, List.map_cons, ih]
    split <;> simp [stripTimestamp_withTimestamp]

theorem subscribe_rtp_strip : ∀ (curr : Nat) (rs : List Packet),
    (SubscribeTransport.rtp_event_loop curr rs).map Packet.stripTimestamp
      = rs.map Packet.stripTimestamp := by
  intro curr rs
  induction rs generalizing curr with
  | nil => rfl
  | cons p rest ih =>
    simp only [SubscribeTransport.rtp_event_loop, List.map_cons, ih]
    simp [stripTimestamp_withTimestamp]

theorem mediaTrack_rtp_seq : ∀ (last : Nat) (ps : List Packet),
    (MediaTrack.rtp_event_loop last ps).map (fun p => p.header.sequenceNumber)
      = ps.map (fun p => p.header.sequenceNumber) := by
  intro last ps
  induction ps generalizing last with
  | nil => rfl
  | cons p rest ih =>
    simp only [MediaTrack.rtp_event_loop, List.map_cons, ih]
    split <;> simp [Packet.withTimestamp]

theorem subscribe_rtp_seq : ∀ (curr : Nat) (rs : List Packet),
    (SubscribeTransport.rtp_event_loop curr rs).map (fun p => p.header.sequenceNumber)
      = rs.map (fun p => p.header.sequenceNumber) := by
  intro curr rs
  induction rs generalizing curr with
  | nil => rfl
  | cons p rest ih =>
    simp only [SubscribeTransport.rtp_event_loop, List.map_cons, ih]
    simp [Packet.withTimestamp]

/-- Claim C3 counterexample: the very first packet read by the ingress loop
is broadcast with its timestamp rewritten to 0, so a packet with original
timestamp 1000 is not forwarded unchanged. -/
theorem C3_counterexample : MediaTrack.rtp_event_loop 0 [c3Packet] ≠ [c3Packet] := by
  decide

/-- Claim C3 (amended): the ingress loop forwards every packet with
payload and all header fields except the timestamp unchanged, in read
order (the timestamp is rewritten to a delta and reconstructed by the
egress prefix sum); the packets delivered to a subscriber that joins after
k broadcasts are, apart from their rewritten timestamps, exactly the
suffix of the read sequence from index k, so the delivered subsequence
preserves the publisher delivery order. -/
theorem C3_forwarding_amended (last k : Nat) (packets : List Packet) :
    (MediaTrack.rtp_event_loop last packets).map Packet.stripTimestamp
      = packets.map Packet.stripTimestamp ∧
    (deliveredToSubscriber k packets).map Packet.stripTimestamp
      = (packets.map Packet.stripTimestamp).drop k ∧
    ((deliveredToSubscriber k packets).map (fun p => p.header.sequenceNumber)).Sublist
      (packets.map (fun p => p.header.sequenceNumber)) := by
  refine ⟨mediaTrack_rtp_strip last packets, ?_, ?_⟩
  · unfold deliveredToSubscriber
    rw [subscribe_rtp_strip, List.map_drop, mediaTrack_rtp_strip]
  · have h3 : (deliveredToSubscriber k packets).map (fun p => p.header.sequenceNumber)
        = (packets.map (fun p => p.header.sequenceNumber)).drop k := by
      unfold deliveredToSubscriber
      rw [subscribe_rtp_seq, List.map_drop, mediaTrack_rtp_seq]
    rw [h3]
    exact List.drop_sublist _ _

/-- Claim C5: processing a GetPublishersExtmap request leaves the router
state unchanged and replies with the mapping from each registered
publisher track id to the ordered (uri, id) pairs of the header extensions
that publisher used, and SubscribeTransport consumes exactly this reply
through adjust_extmap during offer generation. -/
theorem C5_get_publishers_extmap (r : Router) (k : String) (p : Publisher)
    (offer : List SdpMedia) :
    (Router.handle_event r .getPublishersExtmap).1 = r ∧
    (Router.handle_event r .getPublishersExtmap).2
      = some (.publishersExtmap (Router.publishers_extmap r)) ∧
    ((k, p) ∈ r.publishers → (k, p.usedExtensions) ∈ Router.publishers_extmap r) ∧
    SubscribeTransport.create_offer_adjust r offer
      = SubscribeTransport.adjust_extmap offer (Router.publishers_extmap r) := by
  refine ⟨rfl, rfl, ?_, rfl⟩
  intro h
  exact List.mem_map.mpr ⟨(k, p), h, rfl⟩

/-- Witness for C5: the registered sample publisher appears in the
GetPublishersExtmap reply with its used extensions. -/
theorem C5_get_publishers_extmap_witness :
    ("track1", samplePublisher.usedExtensions) ∈ Router.publishers_extmap sampleRouter :=
  (C5_get_publishers_extmap sampleRouter "track1" samplePublisher []).2.2.1 (by decide)

theorem prevTimestamp_cons (last : Nat) (p : Packet) (ps : List Packet) :
    ∀ i, prevTimestamp last (p :: ps) (i + 1) = prevTimestamp p.header.timestamp ps i := by
  intro i
  cases i with
  | zero => rfl
  | succ j => rfl

theorem mediaTrack_rtp_get? : ∀ (ps : List Packet) (last i : Nat),
    (MediaTrack.rtp_event_loop last ps).get? i
      = (ps.get? i).map (fun p =>
          if prevTimestamp last ps i = 0 then p.withTimestamp 0
          else p.withTimestamp (wsub p.header.timestamp (prevTimestamp last ps i))) := by
  intro ps
  induction ps with
  | nil => intro last i; cases i <;> rfl
  | cons p rest ih =>
    intro last i
    cases i with
    | zero => rfl
    | succ j =>
      have h1 : (MediaTrack.rtp_event_loop last (p :: rest)).get? (j + 1)
          = (MediaTrack.rtp_event_loop p.header.timestamp rest).get? j := rfl
      rw [h1, ih]
      simp only [List.get?_cons_succ, prevTimestamp_cons]

theorem subscribe_rtp_get? : ∀ (rs : List Packet) (curr i : Nat),
    (SubscribeTransport.rtp_event_loop curr rs).get? i
      = (rs.get? i).map (fun p => p.withTimestamp (u32 (curr + tsSum rs (i + 1)))) := by
  intro rs
  induction rs with
  | nil => intro curr i; cases i <;> rfl
  | cons p rest ih =>
    intro curr i
    cases i with
    | zero => simp [SubscribeTransport.rtp_event_loop, tsSum]
    | succ j =>
      have h1 : (SubscribeTransport.rtp_event_loop curr (p :: rest)).get? (j + 1)
          = (SubscribeTransport.rtp_event_loop
              (u32 (curr + p.header.timestamp)) rest).get? j := rfl
      rw [h1, ih]
      have hts : tsSum (p :: rest) (j + 1 + 1)
          = p.header.timestamp + tsSum rest (j + 1) := by
        simp [tsSum, List.take_succ_cons]
      have hu : u32 (u32 (curr + p.header.timestamp) + tsSum rest (j + 1))
          = u32 (curr + (p.header.timestamp + tsSum rest (j + 1))) := by
        simp only [u32, U32MOD]
        omega
      simp only [List.get?_cons_succ, hts, hu]

theorem wsub_u32_add (x t : Nat) : wsub (u32 (x + t)) (u32 x) = u32 t := by
  simp only [wsub, u32, U32MOD]
  omega

theorem wsub_lt (a b : Nat) : wsub a b < U32MOD := by
  unfold wsub
  exact Nat.mod_lt _ (by norm_num [U32MOD])

theorem tsSum_succ_of_get? (rs : List Packet) (n : Nat) (q : Packet)
    (h : rs.get? n = some q) :
    tsSum rs (n + 1) = tsSum rs n + q.header.timestamp := by
  have h2 : rs[n]? = some q := by
    rw [← List.get?_eq_getElem?]
    exact h
  simp [tsSum, List.take_succ, h2]

/-- Claim C9 counterexample: with original timestamps [0, 1000] the
ingress delta rewrite maps both packets to timestamp 0 (a packet whose
predecessor had timestamp 0 is reset to 0 instead of getting the delta),
so the difference between consecutive forwarded timestamps is 0 while the
difference between the original timestamps is 1000. -/
theorem C9_counterexample :
    (deliveredToSubscriber 0 [c9PacketA, c9PacketB]).map
      (fun p => p.header.timestamp) = [0, 0] ∧
    wsub (0 : Nat) 0 ≠ wsub c9PacketB.header.timestamp c9PacketA.header.timestamp := by
  decide

/-- Claim C9 (amended): the ingress loop rewrites each timestamp to the
wrapping delta from the previously read packet when that previous
timestamp is nonzero (the first packet, and any packet following a
zero-timestamp packet, gets 0), and the egress loop prefix-sums the
deltas; hence for every pair of consecutively broadcast packets both
received by a subscriber, provided the earlier original timestamp is
nonzero, the mod-2^32 difference of the forwarded timestamps equals the
mod-2^32 difference of the original publisher timestamps, while absolute
values are rebased relative to the first packet the subscriber receives. -/
theorem C9_timestamp_delta_amended (packets : List Packet) (k j : Nat)
    (p q : Packet)
    (hp : packets.get? (k + j) = some p)
    (hq : packets.get? (k + j + 1) = some q)
    (hnz : p.header.timestamp ≠ 0) :
    ∃ a b, (deliveredToSubscriber k packets).get? j = some a ∧
      (deliveredToSubscriber k packets).get? (j + 1) = some b ∧
      wsub b.header.timestamp a.header.timestamp
        = wsub q.header.timestamp p.header.timestamp := by
  have hdrop : ∀ i, ((MediaTrack.rtp_event_loop 0 packets).drop k).get? i
      = (MediaTrack.rtp_event_loop 0 packets).get? (k + i) := by
    intro i
    rw [List.get?_eq_getElem?, List.get?_eq_getElem?]
    exact List.getElem?_drop _ _ _
  have hprev : prevTimestamp 0 packets (k + j + 1) = p.header.timestamp := by
    show ((packets.get? (k + j)).map (fun x => x.header.timestamp)).getD 0 = _
    rw [hp]
    rfl
  obtain ⟨pa, hpa⟩ : ∃ pa, ((MediaTrack.rtp_event_loop 0 packets).drop k).get? j = some pa := by
    rw [hdrop j, mediaTrack_rtp_get?, hp]
    exact ⟨_, rfl⟩
  have hrsj1 : ((MediaTrack.rtp_event_loop 0 packets).drop k).get? (j + 1)
      = some (q.withTimestamp (wsub q.header.timestamp p.header.timestamp)) := by
    rw [hdrop (j + 1), ← Nat.add_assoc, mediaTrack_rtp_get?, hq]
    simp only [Option.map_some']
    rw [hprev, if_neg hnz]
  have hdelj : (deliveredToSubscriber k packets).get? j
      = some (pa.withTimestamp
          (u32 (0 + tsSum ((MediaTrack.rtp_event_loop 0 packets).drop k) (j + 1)))) := by
    unfold deliveredToSubscriber
    rw [subscribe_rtp_get?, hpa]
    rfl
  have hdelj1 : (deliveredToSubscriber k packets).get? (j + 1)
      = some ((q.withTimestamp (wsub q.header.timestamp p.header.timestamp)).withTimestamp
          (u32 (0 + tsSum ((MediaTrack.rtp_event_loop 0 packets).drop k) (j + 1 + 1)))) := by
    unfold deliveredToSubscriber
    rw [subscribe_rtp_get?, hrsj1]
    rfl
  refine ⟨_, _, hdelj, hdelj1, ?_⟩
  have hsum : tsSum ((MediaTrack.rtp_event_loop 0 packets).drop k) (j + 1 + 1)
      = tsSum ((MediaTrack.rtp_event_loop 0 packets).drop k) (j + 1)
        + wsub q.header.timestamp p.header.timestamp := by
    have h := tsSum_succ_of_get? _ (j + 1) _ hrsj1
    rw [h, timestamp_withTimestamp]
  rw [timestamp_withTimestamp, timestamp_withTimestamp, hsum, Nat.zero_add,
    Nat.zero_add, wsub_u32_add]
  exact Nat.mod_eq_of_lt (wsub_lt _ _)

/-- Witness for C9 at a concrete run with timestamps [100, 250]: the
difference of the forwarded timestamps equals the original difference
150. -/
theorem C9_timestamp_delta_amended_witness :
    ∃ a b, (deliveredToSubscriber 0 [c9WitnessA, c9WitnessB]).get? 0 = some a ∧
      (deliveredToSubscriber 0 [c9WitnessA, c9WitnessB]).get? 1 = some b ∧
      wsub b.header.timestamp a.header.timestamp
        = wsub c9WitnessB.header.timestamp c9WitnessA.header.timestamp :=
  C9_timestamp_delta_amended [c9WitnessA, c9WitnessB] 0 0 c9WitnessA c9WitnessB
    (by decide) (by decide) (by decide)
